import Mathlib

/-!
Verification of the recipe retrieval-and-recommendation engine.

The development shallowly embeds the engine's core operations:
ingredient scoring and top-K search (`services/recipe_searcher.py`),
collaborative-filter prediction (`CollaborativeFilter.get_recommendations`),
cache access (`managers/cache_manager.py`), cache-key construction
(`search_recipes`, `managers/user_manager.py`, `services/detector.py`),
interaction recording and user statistics (`managers/user_manager.py`).

Numeric values are modelled as exact rationals, Python strings as `String`,
raised exceptions as `Except` values, and the backing Redis store as an
explicit reply function that either answers or faults.
-/

namespace RecipeEngine

/-! ### Python string primitives

Python compares strings lexicographically by code point; `lexLe` is that
order on the underlying character lists, and `pySorted` is Python's
`sorted` on strings (the unique ascending reordering, since the order is
linear).  Python's substring test `needle in hay` is `listInfix`:
`needle` occurs contiguously in `hay`.
-/

def lexLe : List Char → List Char → Bool
  | [], _ => true
  | _ :: _, [] => false
  | a :: as, b :: bs => if a < b then true else if b < a then false else lexLe as bs

def strLe (a b : String) : Bool := lexLe a.data b.data

def strOrd (a b : String) : Prop := strLe a b = true

instance : DecidableRel strOrd := fun a b => inferInstanceAs (Decidable (strLe a b = true))

def pySorted (l : List String) : List String := List.insertionSort strOrd l

def listInfix (needle hay : List Char) : Bool :=
  (List.range (hay.length + 1)).any (fun i => needle.isPrefixOf (hay.drop i))

def pyIn (needle hay : String) : Bool := listInfix needle.data hay.data

/-- Python `str.lower()`: lower-case every character. -/
def pyLower (s : String) : String := ⟨s.data.map Char.toLower⟩

/-- Python `str.strip()`: drop leading and trailing whitespace. -/
def pyStrip (s : String) : String :=
  ⟨((s.data.dropWhile Char.isWhitespace).reverse.dropWhile Char.isWhitespace).reverse⟩

/-! ### Cache keys

`RecipeSearcher.search_recipes` builds
`f"recipe_search:{','.join(sorted(ingredients))}"` from the raw query
strings, before the `strip().lower()` normalization happens.
`UserProfileManager` uses `user_profile:{user_id}` and
`user_interactions:{user_id}`; `EnhancedFoodDetector` uses
`rating:{user_id}:current_recipe`, `profile:{user_id}` and
`ingredients:{image_hash}`.
-/

def cache_key (ingredients : List String) : String :=
  "recipe_search:" ++ String.intercalate "," (pySorted ingredients)

def user_profile_key (user_id : String) : String := "user_profile:" ++ user_id

def user_interactions_key (user_id : String) : String := "user_interactions:" ++ user_id

def rating_key (user_id : String) : String := "rating:" ++ user_id ++ ":current_recipe"

def profile_key (user_id : String) : String := "profile:" ++ user_id

def ingredients_key (image_hash : String) : String := "ingredients:" ++ image_hash

/-- The four key namespaces the spec fixes in its external-interface section
(over the key's character list, to keep the check computable). -/
def inSpecNamespaces (k : String) : Bool :=
  "recipe-search:".data.isPrefixOf k.data || "user-profile:".data.isPrefixOf k.data ||
    "user-interactions:".data.isPrefixOf k.data ||
    ("rating:".data.isPrefixOf k.data && ":current-recipe".data.isSuffixOf k.data)

/-- The key namespaces the source actually writes and reads. -/
def inCodeNamespaces (k : String) : Bool :=
  "recipe_search:".data.isPrefixOf k.data || "user_profile:".data.isPrefixOf k.data ||
    "user_interactions:".data.isPrefixOf k.data || "rating:".data.isPrefixOf k.data ||
    "profile:".data.isPrefixOf k.data || "ingredients:".data.isPrefixOf k.data

/-! ### Ingredient scorer (`RecipeSearcher._calculate_ingredient_scores`)

For each recipe the source lower-cases the recipe's ingredient strings,
counts the query ingredients that occur as a substring of any of them, and
divides by the query length.  The division is Python `/`: on an empty
query it raises `ZeroDivisionError`, modelled by the `Except` variant
`scoreOne`.  A recipe list is modelled by its list of ingredient strings,
the corpus by the list of those lists.
-/

def normalizeIngredients (ingredients : List String) : List String :=
  ingredients.map (fun ing => pyLower (pyStrip ing))

def ingredientMatches (input_ingredients recipe_ingredients : List String) : Nat :=
  (input_ingredients.filter
    (fun ing => (recipe_ingredients.map pyLower).any (fun r => pyIn ing r))).length

def ingredientScore (input_ingredients recipe_ingredients : List String) : ℚ :=
  (ingredientMatches input_ingredients recipe_ingredients : ℚ) /
    (input_ingredients.length : ℚ)

def scoreOne (input_ingredients recipe_ingredients : List String) : Except String ℚ :=
  if input_ingredients.length = 0 then Except.error "ZeroDivisionError: division by zero"
  else Except.ok (ingredientScore input_ingredients recipe_ingredients)

def calculate_ingredient_scores (input_ingredients : List String)
    (recipes : List (List String)) : Except String (List ℚ) :=
  recipes.mapM (scoreOne input_ingredients)

/-! ### Search (`RecipeSearcher.search_recipes`)

On a cache hit the cached rows are returned unchanged.  On a miss the
query is normalized, the corpus is scored, `np.argsort` ascending is
taken, the last `top_k` indices are reversed (highest score first) and
returned; the collaborative-filter scores computed along the way are
discarded before ranking (`final_scores = ingredient_scores`), so they
cannot influence the rows.  The enclosing `try/except` turns any raised
exception into an empty result frame.  `SearchOutcome` is the vocabulary
for the spec's claim: the source has no branch that builds
`validationError`.
-/

def argsort (scores : List ℚ) : List Nat :=
  List.insertionSort (fun i j => scores.getD i 0 ≤ scores.getD j 0) (List.range scores.length)

def top_k_indices (scores : List ℚ) (top_k : Nat) : List Nat :=
  ((argsort scores).drop (scores.length - top_k)).reverse

inductive SearchOutcome where
  | validationError (message : String)
  | resultRows (rows : List Nat)
deriving DecidableEq

def isValidationError : SearchOutcome → Bool
  | .validationError _ => true
  | .resultRows _ => false

def search_recipes (cacheGet : String → Option (List Nat)) (recipes : List (List String))
    (ingredients : List String) (top_k : Nat) : SearchOutcome :=
  let body : Except String (List Nat) :=
    match cacheGet (cache_key ingredients) with
    | some cached => Except.ok cached
    | none =>
      match calculate_ingredient_scores (normalizeIngredients ingredients) recipes with
      | Except.error e => Except.error e
      | Except.ok scores => Except.ok (top_k_indices scores top_k)
  match body with
  | Except.ok rows => SearchOutcome.resultRows rows
  | Except.error _ => SearchOutcome.resultRows []

/-! ### Collaborative filter (`CollaborativeFilter.get_recommendations`)

An unknown user (or an empty mapping) returns `np.zeros(100)`.  Any
exception on the known-user path — `user_matrix` unpopulated or the index
out of range, `np.dot` raising `ValueError` because the user vector's
length differs from an item row's, or `predictions.min()` on an empty
prediction vector — is caught by the method's `try/except`, which also
returns `np.zeros(100)`.  Otherwise the raw prediction per item row is
`global_mean + dot(user_vector, item_row)` and the vector is min-max
normalized with the `1e-8` guard.  The embedding guards the `dot` calls
with the explicit shape check `np.dot` performs, so a mismatched populated
state takes the exception path, exactly as in the source.
-/

structure CollaborativeFilter where
  n_factors : Nat
  user_matrix : List (List ℚ)
  item_matrix : List (List ℚ)
  global_mean : ℚ
  user_mapping : List (String × Nat)

/-- `np.dot` on two vectors of equal length.  `np.dot` raises on
mismatched lengths instead of truncating, so `get_recommendations` only
reaches `dot` behind the shape check below. -/
def dot (u v : List ℚ) : ℚ := (List.zipWith (fun a b => a * b) u v).sum

def listMin (x : ℚ) (xs : List ℚ) : ℚ := xs.foldl min x

def listMax (x : ℚ) (xs : List ℚ) : ℚ := xs.foldl max x

def epsilon : ℚ := 1 / 100000000

def get_recommendations (cf : CollaborativeFilter) (user_id : String) : List ℚ :=
  match cf.user_mapping.lookup user_id with
  | none => List.replicate 100 0
  | some user_idx =>
    match cf.user_matrix.get? user_idx with
    | none => List.replicate 100 0
    | some user_vector =>
      if cf.item_matrix.all (fun item_row => item_row.length == user_vector.length) then
        match cf.item_matrix.map (fun item_row => cf.global_mean + dot user_vector item_row) with
        | [] => List.replicate 100 0
        | p :: ps =>
          let mn := listMin p ps
          let mx := listMax p ps
          (p :: ps).map (fun v => (v - mn) / (mx - mn + epsilon))
      else List.replicate 100 0

/-! ### Cache manager (`CacheManager.get_cached` / `set_cached`)

The Redis client is modelled as reply functions that either answer or
fault (raise).  `get_cached` returns `None` on a missing key, on a fault,
on an empty reply (`if data` is false on `b""`), and when deserializing
the stored text raises — every failure is swallowed by the method's
`try/except`.  `set_cached` resolves `ttl or self.cache_ttl` (`None` and
`0` are falsy, the default is 3600) and returns `False` when the write
faults.  The deserializer is a parameter because the source's `eval` can
produce an arbitrary value.
-/

inductive StoreReply (α : Type) where
  | ok (value : α)
  | fault (message : String)
deriving DecidableEq

def get_cached {α : Type} (redis_get : String → StoreReply (Option String))
    (deserialize : String → Except String α) (key : String) : Option α :=
  match redis_get key with
  | StoreReply.fault _ => none
  | StoreReply.ok none => none
  | StoreReply.ok (some data) =>
    if data = "" then none
    else
      match deserialize data with
      | Except.error _ => none
      | Except.ok v => some v

def resolve_ttl (ttl : Option Nat) : Nat :=
  match ttl with
  | none => 3600
  | some 0 => 3600
  | some n => n

def set_cached (redis_setex : String → Nat → String → StoreReply Bool) (key : String)
    (value : String) (ttl : Option Nat) : Bool :=
  match redis_setex key (resolve_ttl ttl) value with
  | StoreReply.fault _ => false
  | StoreReply.ok b => b

/-! ### User interactions and statistics (`UserProfileManager`)

`record_interaction` appends the interaction to the submitting user's
history and returns `True`; the cache write and the JSON save it also
performs do not affect the history or the return value, and no branch
inspects the rating.  `handle_rating_submission` (`services/detector.py`)
rejects only an empty user id, then reports success or failure of the
cache write.  `get_user_stats` and `_get_favorite_recipes` both begin by
calling `self.get_user_ratings(user_id)`, a method defined nowhere in the
repository, so the call raises `AttributeError`; each surrounding handler
swallows it and returns the empty dictionary or the empty list.
-/

structure Interaction where
  recipe_id : String
  rating : ℚ
  feedback : String
  timestamp : String
deriving DecidableEq

def record_interaction (history : List Interaction) (recipe_id : String) (rating : ℚ)
    (feedback timestamp : String) : Bool × List Interaction :=
  (true, history ++ [{ recipe_id := recipe_id, rating := rating, feedback := feedback,
                       timestamp := timestamp }])

def handle_rating_submission (set_cached_result : Bool) (user_id : String) (rating : ℚ) :
    String :=
  if user_id = "" then "請輸入用戶ID"
  else if set_cached_result then "評分已成功提交！"
  else "評分提交失敗，請稍後重試"

/-- `get_user_ratings` is called but defined nowhere in the repository:
at runtime the attribute lookup raises, modelled as the raising call. -/
def get_user_ratings (user_id : String) : Except String (List Interaction) :=
  Except.error "AttributeError: UserProfileManager has no attribute get_user_ratings"

inductive UserStats where
  | empty
  | stats (total_ratings : Nat) (average_rating : ℚ) (last_interaction : Option String)
      (favorite_recipes : List String)
deriving DecidableEq

def sortByRatingDesc (ratings : List Interaction) : List Interaction :=
  List.insertionSort (fun a b => b.rating ≤ a.rating) ratings

def favorite_recipes_of (user_id : String) (top_k : Nat) : List String :=
  match get_user_ratings user_id with
  | Except.error _ => []
  | Except.ok ratings => ((sortByRatingDesc ratings).take top_k).map (fun r => r.recipe_id)

def pyAverage (ratings : List Interaction) : ℚ :=
  (ratings.map (fun r => r.rating)).sum / (ratings.length : ℚ)

def get_user_stats (user_id : String) : UserStats :=
  match get_user_ratings user_id with
  | Except.error _ => UserStats.empty
  | Except.ok ratings =>
    if ratings.isEmpty then UserStats.empty
    else
      UserStats.stats ratings.length (pyAverage ratings)
        ((ratings.getLast?).map (fun r => r.timestamp)) (favorite_recipes_of user_id 5)

/-- A small populated filter state: one known user with latent vector
`[1]`, two item rows, global mean `0`. -/
def demoFilter : CollaborativeFilter :=
  { n_factors := 50, user_matrix := [[1]], item_matrix := [[2], [3]], global_mean := 0,
    user_mapping := [("u", 0)] }

/-! ### Order lemmas for `lexLe` -/

theorem lexLe_cons_iff (a b : Char) (as bs : List Char) :
    lexLe (a :: as) (b :: bs) = true ↔ a < b ∨ (a = b ∧ lexLe as bs = true) := by
  by_cases hab : a < b
  · simp [lexLe, hab]
  · by_cases hba : b < a
    · have : a ≠ b := fun h => absurd (h ▸ hba) (lt_irrefl a)
      simp [lexLe, hab, hba, this]
    · have : a = b := le_antisymm (le_of_not_lt hba) (le_of_not_lt hab)
      simp [lexLe, hab, hba, this]

theorem lexLe_total (a b : List Char) : lexLe a b = true ∨ lexLe b a = true := by
  induction a generalizing b with
  | nil => left; rfl
  | cons x xs ih =>
    cases b with
    | nil => right; rfl
    | cons y ys =>
      rcases lt_trichotomy x y with h | h | h
      · left; exact (lexLe_cons_iff _ _ _ _).mpr (Or.inl h)
      · rcases ih ys with h' | h'
        · left; exact (lexLe_cons_iff _ _ _ _).mpr (Or.inr ⟨h, h'⟩)
        · right; exact (lexLe_cons_iff _ _ _ _).mpr (Or.inr ⟨h.symm, h'⟩)
      · right; exact (lexLe_cons_iff _ _ _ _).mpr (Or.inl h)

theorem lexLe_trans (a b c : List Char) (hab : lexLe a b = true) (hbc : lexLe b c = true) :
    lexLe a c = true := by
  induction a generalizing b c with
  | nil => rfl
  | cons x xs ih =>
    cases b with
    | nil => exact absurd hab (by simp [lexLe])
    | cons y ys =>
      cases c with
      | nil => exact absurd hbc (by simp [lexLe])
      | cons z zs =>
        rcases (lexLe_cons_iff _ _ _ _).mp hab with h₁ | ⟨h₁, h₁'⟩ <;>
          rcases (lexLe_cons_iff _ _ _ _).mp hbc with h₂ | ⟨h₂, h₂'⟩
        · exact (lexLe_cons_iff _ _ _ _).mpr (Or.inl (lt_trans h₁ h₂))
        · exact (lexLe_cons_iff _ _ _ _).mpr (Or.inl (h₂ ▸ h₁))
        · exact (lexLe_cons_iff _ _ _ _).mpr (Or.inl (h₁ ▸ h₂))
        · exact (lexLe_cons_iff _ _ _ _).mpr (Or.inr ⟨h₁.trans h₂, ih ys zs h₁' h₂'⟩)

theorem lexLe_antisymm (a b : List Char) (hab : lexLe a b = true) (hba : lexLe b a = true) :
    a = b := by
  induction a generalizing b with
  | nil =>
    cases b with
    | nil => rfl
    | cons y ys => exact absurd hba (by simp [lexLe])
  | cons x xs ih =>
    cases b with
    | nil => exact absurd hab (by simp [lexLe])
    | cons y ys =>
      rcases (lexLe_cons_iff _ _ _ _).mp hab with h₁ | ⟨h₁, h₁'⟩ <;>
        rcases (lexLe_cons_iff _ _ _ _).mp hba with h₂ | ⟨h₂, h₂'⟩
      · exact absurd h₂ (lt_asymm h₁)
      · exact absurd (h₂ ▸ h₁) (lt_irrefl y)
      · exact absurd (h₁ ▸ h₂) (lt_irrefl y)
      · rw [h₁, ih ys h₁' h₂']

instance : IsTotal String strOrd := ⟨fun a b => lexLe_total a.data b.data⟩

instance : IsTrans String strOrd := ⟨fun a b c => lexLe_trans a.data b.data c.data⟩

instance : IsAntisymm String strOrd := by
  refine ⟨fun a b hab hba => ?_⟩
  cases a; cases b
  exact congrArg String.mk (lexLe_antisymm _ _ hab hba)

theorem pySorted_perm_eq {l₁ l₂ : List String} (h : l₁.Perm l₂) : pySorted l₁ = pySorted l₂ :=
  List.eq_of_perm_of_sorted
    ((List.perm_insertionSort strOrd l₁).trans (h.trans (List.perm_insertionSort strOrd l₂).symm))
    (List.sorted_insertionSort strOrd l₁) (List.sorted_insertionSort strOrd l₂)

theorem isPrefixOf_append_self (a b : List Char) : a.isPrefixOf (a ++ b) = true := by
  induction a with
  | nil => simp [List.isPrefixOf]
  | cons x xs ih => simp [List.isPrefixOf, ih]

theorem isPrefixOf_self (a : List Char) : a.isPrefixOf a = true := by
  have h := isPrefixOf_append_self a []
  rwa [List.append_nil] at h

theorem listInfix_self (l : List Char) : listInfix l l = true := by
  unfold listInfix
  rw [List.any_eq_true]
  exact ⟨0, List.mem_range.mpr (Nat.succ_pos _), by simp [isPrefixOf_self]⟩

theorem pyIn_self (s : String) : pyIn s s = true := listInfix_self s.data

/-! ### Fold lemmas for `listMin` / `listMax` -/

theorem listMin_le (x : ℚ) (xs : List ℚ) : ∀ y ∈ x :: xs, listMin x xs ≤ y := by
  induction xs generalizing x with
  | nil =>
    intro y hy
    rw [List.mem_singleton] at hy
    exact hy ▸ le_refl x
  | cons z zs ih =>
    intro y hy
    have step : listMin x (z :: zs) = listMin (min x z) zs := rfl
    rcases List.mem_cons.mp hy with h | h
    · rw [step, h]
      exact (ih (min x z) (min x z) (List.mem_cons_self _ _)).trans (min_le_left x z)
    · rcases List.mem_cons.mp h with h' | h'
      · rw [step, h']
        exact (ih (min x z) (min x z) (List.mem_cons_self _ _)).trans (min_le_right x z)
      · rw [step]
        exact ih (min x z) y (List.mem_cons_of_mem _ h')

theorem le_listMax (x : ℚ) (xs : List ℚ) : ∀ y ∈ x :: xs, y ≤ listMax x xs := by
  induction xs generalizing x with
  | nil =>
    intro y hy
    rw [List.mem_singleton] at hy
    exact hy ▸ le_refl x
  | cons z zs ih =>
    intro y hy
    have step : listMax x (z :: zs) = listMax (max x z) zs := rfl
    rcases List.mem_cons.mp hy with h | h
    · rw [step, h]
      exact (le_max_left x z).trans (ih (max x z) (max x z) (List.mem_cons_self _ _))
    · rcases List.mem_cons.mp h with h' | h'
      · rw [step, h']
        exact (le_max_right x z).trans (ih (max x z) (max x z) (List.mem_cons_self _ _))
      · rw [step]
        exact ih (max x z) y (List.mem_cons_of_mem _ h')

/-! ### Claim theorems -/

/-- C2 counterexample: the cache key is built from the raw strings
before lower-casing, so the two set-equal queries from the claim get
different keys. -/
theorem cache_key_not_case_independent :
    cache_key ["Egg", "Milk"] = "recipe_search:Egg,Milk" ∧
    cache_key ["milk", "egg"] = "recipe_search:egg,milk" ∧
    cache_key ["Egg", "Milk"] ≠ cache_key ["milk", "egg"] := by decide

/-- C2 (amended): the cache key derived by `search_recipes` is
order-independent — any two queries holding the same raw ingredient
strings in any order produce the same key — but it is not
case-independent, because the raw strings are sorted and joined before
the trim/lower-case normalization runs. -/
theorem cache_key_order_independent (l₁ l₂ : List String) (h : l₁.Perm l₂) :
    cache_key l₁ = cache_key l₂ := by
  unfold cache_key
  rw [pySorted_perm_eq h]

/-- C2 witness: the order-independence theorem applied to a transposed
concrete query. -/
theorem cache_key_order_independent_witness :
    cache_key ["Egg", "Milk"] = cache_key ["Milk", "Egg"] :=
  cache_key_order_independent ["Egg", "Milk"] ["Milk", "Egg"] (by decide)

/-- C3 counterexample: the concrete keys the engine derives for a search,
a profile write, an interaction write and a rating write all fall outside
the four namespaces the spec fixes (the source spells them with
underscores, not hyphens). -/
theorem engine_keys_outside_spec_namespaces :
    inSpecNamespaces (cache_key ["egg"]) = false ∧
    inSpecNamespaces (user_profile_key "u1") = false ∧
    inSpecNamespaces (user_interactions_key "u1") = false ∧
    inSpecNamespaces (rating_key "u1") = false := by decide

/-- C3 (amended): every cache key the engine writes or reads lies in the
six namespaces the source actually uses — `recipe_search:`,
`user_profile:`, `user_interactions:`, `rating:`, `profile:` and
`ingredients:` — with underscores, not the four hyphenated namespaces the
spec lists. -/
theorem engine_keys_in_code_namespaces (ingredients : List String)
    (user_id image_hash : String) :
    inCodeNamespaces (cache_key ingredients) = true ∧
    inCodeNamespaces (user_profile_key user_id) = true ∧
    inCodeNamespaces (user_interactions_key user_id) = true ∧
    inCodeNamespaces (rating_key user_id) = true ∧
    inCodeNamespaces (profile_key user_id) = true ∧
    inCodeNamespaces (ingredients_key image_hash) = true := by
  refine ⟨?_, ?_, ?_, ?_, ?_, ?_⟩ <;>
    simp [inCodeNamespaces, cache_key, user_profile_key, user_interactions_key, rating_key,
      profile_key, ingredients_key, String.data_append, isPrefixOf_append_self,
      String.append_assoc]

/-- C4: for every non-empty query and every recipe ingredient list, the
ingredient score — matched query ingredients divided by query size — lies
in the closed interval from 0 to 1. -/
theorem ingredient_score_in_unit_interval (input_ingredients recipe_ingredients : List String)
    (h : input_ingredients ≠ []) :
    0 ≤ ingredientScore input_ingredients recipe_ingredients ∧
      ingredientScore input_ingredients recipe_ingredients ≤ 1 := by
  have hlen : 0 < input_ingredients.length := List.length_pos.mpr h
  have hm : ingredientMatches input_ingredients recipe_ingredients ≤ input_ingredients.length :=
    List.length_filter_le _ _
  constructor
  · exact div_nonneg (Nat.cast_nonneg _) (Nat.cast_nonneg _)
  · rw [ingredientScore, div_le_one (by exact_mod_cast hlen)]
    exact_mod_cast hm

/-- C4 witness: the unit-interval bound applied to a concrete query and
recipe. -/
theorem ingredient_score_in_unit_interval_witness :
    0 ≤ ingredientScore ["egg", "flour"] ["milk", "butter"] ∧
      ingredientScore ["egg", "flour"] ["milk", "butter"] ≤ 1 :=
  ingredient_score_in_unit_interval ["egg", "flour"] ["milk", "butter"] (by decide)

/-- C5: a recipe whose lower-cased ingredient list contains every query
ingredient scores exactly 1. -/
theorem superset_recipe_scores_one (input_ingredients recipe_ingredients : List String)
    (hne : input_ingredients ≠ [])
    (hsup : ∀ ing ∈ input_ingredients, ing ∈ recipe_ingredients.map pyLower) :
    ingredientScore input_ingredients recipe_ingredients = 1 := by
  have hpred : ∀ ing ∈ input_ingredients,
      ((recipe_ingredients.map pyLower).any (fun r => pyIn ing r)) = true := by
    intro ing hing
    rw [List.any_eq_true]
    exact ⟨ing, hsup ing hing, pyIn_self ing⟩
  have hall : ingredientMatches input_ingredients recipe_ingredients
      = input_ingredients.length := by
    unfold ingredientMatches
    rw [List.filter_eq_self.mpr hpred]
  have hlen : (0 : ℚ) < (input_ingredients.length : ℚ) := by
    exact_mod_cast List.length_pos.mpr hne
  rw [ingredientScore, hall]
  exact div_self (ne_of_gt hlen)

/-- C5 witness: a query fully contained in a recipe's lower-cased
ingredient list scores 1. -/
theorem superset_recipe_scores_one_witness :
    ingredientScore ["egg", "flour"] ["Egg", "Flour", "Milk"] = 1 :=
  superset_recipe_scores_one ["egg", "flour"] ["Egg", "Flour", "Milk"] (by decide) (by decide)

/-- C1 counterexample: on an empty ingredient list (cache cold, one-recipe
corpus) `search_recipes` returns an ordinary, empty result set — not a
validation error. -/
theorem search_empty_query_no_validation_error :
    search_recipes (fun _ => none) [["egg"]] [] 5 = SearchOutcome.resultRows [] ∧
      isValidationError (search_recipes (fun _ => none) [["egg"]] [] 5) = false := by decide

/-- C1 (amended): for every cold cache and every corpus,
`search_recipes([])` does not surface the division fault — the internal
`ZeroDivisionError` is swallowed by the method's broad `except` — but it
does not return a validation error either: it returns an empty result
set, the silently degraded result. -/
theorem search_empty_query_degrades (cacheGet : String → Option (List Nat))
    (recipes : List (List String)) (top_k : Nat)
    (h : cacheGet (cache_key []) = none) :
    search_recipes cacheGet recipes [] top_k = SearchOutcome.resultRows [] ∧
      isValidationError (search_recipes cacheGet recipes [] top_k) = false := by
  have hbody : search_recipes cacheGet recipes [] top_k = SearchOutcome.resultRows [] := by
    unfold search_recipes
    rw [h]
    cases recipes with
    | nil =>
      show SearchOutcome.resultRows (top_k_indices [] top_k) = SearchOutcome.resultRows []
      have ht : top_k_indices [] top_k = [] := by
        simp [top_k_indices, argsort, List.insertionSort]
      rw [ht]
    | cons r rs => rfl
  exact ⟨hbody, by rw [hbody]; rfl⟩

/-- C1 witness: the degradation theorem applied to a cold cache and a
two-recipe corpus. -/
theorem search_empty_query_degrades_witness :
    search_recipes (fun _ => none) [["egg"], ["milk"]] [] 3 = SearchOutcome.resultRows [] ∧
      isValidationError (search_recipes (fun _ => none) [["egg"], ["milk"]] [] 3) = false :=
  search_empty_query_degrades (fun _ => none) [["egg"], ["milk"]] 3 rfl

/-- C6: a user id absent from the filter's user mapping — in particular
when no factor matrices were ever populated — gets the all-zero vector of
the hard-coded default length 100, through the total (never-raising)
embedding of `get_recommendations`. -/
theorem unknown_user_zero_vector (cf : CollaborativeFilter) (user_id : String)
    (h : cf.user_mapping.lookup user_id = none) :
    get_recommendations cf user_id = List.replicate 100 0 ∧
      (get_recommendations cf user_id).length = 100 ∧
      ∀ q ∈ get_recommendations cf user_id, q = 0 := by
  have hz : get_recommendations cf user_id = List.replicate 100 0 := by
    unfold get_recommendations
    rw [h]
  refine ⟨hz, by rw [hz]; simp, ?_⟩
  intro q hq
  rw [hz] at hq
  exact List.eq_of_mem_replicate hq

/-- C6 witness: the zero-vector theorem applied to the never-trained
filter state. -/
theorem unknown_user_zero_vector_witness :
    get_recommendations ⟨50, [], [], 0, []⟩ "alice" = List.replicate 100 0 ∧
      (get_recommendations ⟨50, [], [], 0, []⟩ "alice").length = 100 ∧
      ∀ q ∈ get_recommendations ⟨50, [], [], 0, []⟩ "alice", q = 0 :=
  unknown_user_zero_vector ⟨50, [], [], 0, []⟩ "alice" rfl

/-- C7: for a user id mapped to a populated row of the user matrix and a
non-empty item matrix whose rows match the user vector's dimensionality
(on a mismatch `np.dot` raises and the `except` returns the zero vector
instead), `get_recommendations` min-max normalizes the raw predictions
with the `1e-8` epsilon guard, so the returned vector has one entry per
item row and every entry lies in the closed unit interval — including the
degenerate all-equal case, where the guard alone keeps the denominator
positive. -/
theorem known_user_scores_in_unit_interval (cf : CollaborativeFilter) (user_id : String)
    (user_idx : Nat) (user_vector : List ℚ)
    (hmap : cf.user_mapping.lookup user_id = some user_idx)
    (hvec : cf.user_matrix.get? user_idx = some user_vector)
    (hdim : ∀ item_row ∈ cf.item_matrix, item_row.length = user_vector.length)
    (hitems : cf.item_matrix ≠ []) :
    (get_recommendations cf user_id).length = cf.item_matrix.length ∧
      ∀ q ∈ get_recommendations cf user_id, 0 ≤ q ∧ q ≤ 1 := by
  obtain ⟨row, rows, hrr⟩ := List.exists_cons_of_ne_nil hitems
  have hb : cf.item_matrix.all (fun item_row => item_row.length == user_vector.length)
      = true := by
    rw [List.all_eq_true]
    intro r hr
    exact beq_iff_eq.mpr (hdim r hr)
  have hget : get_recommendations cf user_id =
      ((cf.global_mean + dot user_vector row) ::
        rows.map (fun item_row => cf.global_mean + dot user_vector item_row)).map
        (fun v =>
          (v - listMin (cf.global_mean + dot user_vector row)
              (rows.map (fun item_row => cf.global_mean + dot user_vector item_row))) /
            (listMax (cf.global_mean + dot user_vector row)
                (rows.map (fun item_row => cf.global_mean + dot user_vector item_row)) -
              listMin (cf.global_mean + dot user_vector row)
                (rows.map (fun item_row => cf.global_mean + dot user_vector item_row)) +
              epsilon)) := by
    rw [hrr] at hb
    simp only [get_recommendations, hmap, hvec, hrr, hb, eq_self_iff_true, if_true,
      List.map_cons]
  set P := cf.global_mean + dot user_vector row with hP
  set Ps := rows.map (fun item_row => cf.global_mean + dot user_vector item_row) with hPs
  have heps : (0 : ℚ) < epsilon := by norm_num [epsilon]
  have hmnmx : listMin P Ps ≤ listMax P Ps :=
    (listMin_le P Ps P (List.mem_cons_self _ _)).trans
      (le_listMax P Ps P (List.mem_cons_self _ _))
  have hden : 0 < listMax P Ps - listMin P Ps + epsilon := by linarith
  constructor
  · rw [hget, hrr]
    simp [hPs]
  · intro q hq
    rw [hget] at hq
    obtain ⟨v, hv, rfl⟩ := List.mem_map.mp hq
    have hmn : listMin P Ps ≤ v := listMin_le P Ps v hv
    have hmx : v ≤ listMax P Ps := le_listMax P Ps v hv
    constructor
    · exact div_nonneg (by linarith) hden.le
    · rw [div_le_one hden]
      linarith

/-- C7 witness: the unit-interval theorem applied to the populated demo
filter (raw predictions 2 and 3), with the second returned entry checked
against the bounds. -/
theorem known_user_scores_in_unit_interval_witness :
    (get_recommendations demoFilter "u").length = 2 ∧
      (0 ≤ (get_recommendations demoFilter "u").getD 1 0 ∧
        (get_recommendations demoFilter "u").getD 1 0 ≤ 1) := by
  have h := known_user_scores_in_unit_interval demoFilter "u" 0 [1] (by decide) (by decide)
    (by decide) (by decide)
  have hlen : (get_recommendations demoFilter "u").length = 2 := h.1
  have h1 : 1 < (get_recommendations demoFilter "u").length := by
    rw [hlen]
    norm_num
  have hmem : (get_recommendations demoFilter "u").getD 1 0 ∈
      get_recommendations demoFilter "u" := by
    rw [List.getD_eq_getElem _ 0 h1]
    exact List.getElem_mem h1
  exact ⟨hlen, h.2 _ hmem⟩

/-- C8 counterexample: the rating 7 lies outside the closed interval from
1 to 5, yet `record_interaction` reports success and appends it to the
history, and the rating-submission handler reports success — the claimed
rejection does not exist. -/
theorem out_of_range_rating_recorded :
    ¬ ((1 : ℚ) ≤ 7 ∧ (7 : ℚ) ≤ 5) ∧
      (record_interaction [] "r1" 7 "" "2024-01-01 00:00:00").fst = true ∧
      (record_interaction [] "r1" 7 "" "2024-01-01 00:00:00").snd =
        [{ recipe_id := "r1", rating := 7, feedback := "",
           timestamp := "2024-01-01 00:00:00" }] ∧
      handle_rating_submission true "u1" 7 = "評分已成功提交！" := by decide

/-- C8 (amended): neither `record_interaction` nor the rating-submission
handler validates the rating's range: every rating outside the interval
from 1 to 5 is recorded with a success flag, and for every non-empty user
id the handler reports success; only the UI slider constrains input. -/
theorem rating_range_never_validated (history : List Interaction) (recipe_id : String)
    (rating : ℚ) (feedback timestamp : String) (h : rating < 1 ∨ 5 < rating) :
    (record_interaction history recipe_id rating feedback timestamp).fst = true ∧
      ({ recipe_id := recipe_id, rating := rating, feedback := feedback,
         timestamp := timestamp : Interaction }) ∈
        (record_interaction history recipe_id rating feedback timestamp).snd ∧
      ∀ user_id : String, user_id ≠ "" →
        handle_rating_submission true user_id rating = "評分已成功提交！" := by
  refine ⟨rfl, ?_, ?_⟩
  · exact List.mem_append_right _ (List.mem_singleton.mpr rfl)
  · intro user_id huid
    simp [handle_rating_submission, huid]

/-- C8 witness: the no-validation theorem applied to the out-of-range
rating one half. -/
theorem rating_range_never_validated_witness :
    ((1 : ℚ) / 2 < 1 ∨ 5 < (1 : ℚ) / 2) ∧
      (record_interaction [] "r9" ((1 : ℚ) / 2) "bad" "ts").fst = true ∧
      ({ recipe_id := "r9", rating := (1 : ℚ) / 2, feedback := "bad",
         timestamp := "ts" : Interaction }) ∈
        (record_interaction [] "r9" ((1 : ℚ) / 2) "bad" "ts").snd ∧
      handle_rating_submission true "u1" ((1 : ℚ) / 2) = "評分已成功提交！" := by
  have h := rating_range_never_validated [] "r9" ((1 : ℚ) / 2) "bad" "ts"
    (Or.inl (by norm_num))
  exact ⟨Or.inl (by norm_num), h.1, h.2.1, h.2.2 "u1" (by decide)⟩

/-- C9: a faulting or missing read is reported as absent by `get_cached`,
and a faulting write makes `set_cached` return false; both embeddings are
total functions, so no exception reaches the caller. -/
theorem cache_faults_swallowed {α : Type} (redis_get : String → StoreReply (Option String))
    (deserialize : String → Except String α)
    (redis_setex : String → Nat → String → StoreReply Bool) (key value : String)
    (ttl : Option Nat) (get_message set_message : String)
    (hget : redis_get key = StoreReply.fault get_message ∨ redis_get key = StoreReply.ok none)
    (hset : redis_setex key (resolve_ttl ttl) value = StoreReply.fault set_message) :
    get_cached redis_get deserialize key = none ∧
      set_cached redis_setex key value ttl = false := by
  constructor
  · rcases hget with h | h <;> (unfold get_cached; rw [h])
  · unfold set_cached
    rw [hset]

/-- C9 witness: the fault-swallowing theorem applied to a backing store
whose every call faults. -/
theorem cache_faults_swallowed_witness :
    get_cached (fun _ => StoreReply.fault "ConnectionError")
        (fun _ => Except.ok (0 : Nat)) "k" = none ∧
      set_cached (fun _ _ _ => StoreReply.fault "ConnectionError") "k" "v" none = false :=
  cache_faults_swallowed (fun _ => StoreReply.fault "ConnectionError")
    (fun _ => Except.ok (0 : Nat)) (fun _ _ _ => StoreReply.fault "ConnectionError")
    "k" "v" none "ConnectionError" "ConnectionError" (Or.inl rfl) rfl

/-- C10: because `get_user_ratings` is defined nowhere, `get_user_stats`
always returns the empty dictionary and `_get_favorite_recipes` (embedded
as `favorite_recipes_of`) always returns the empty list, for every user id
and every requested count: the documented per-user statistics are
unreachable. -/
theorem user_stats_unreachable :
    (∀ user_id, get_user_stats user_id = UserStats.empty) ∧
      ∀ user_id top_k, favorite_recipes_of user_id top_k = [] :=
  ⟨fun _ => rfl, fun _ _ => rfl⟩

end RecipeEngine
